import Mathlib

/-!
Verification of the sabertooth efficient-attention kernels.

The development shallowly embeds the three source modules:
  - efficient_attention/Performer/performer_mha.py   (class MHA)
  - efficient_attention/SONIC/sonic_lin_rfa_mha.py   (class MHA)
  - efficient_attention/RFA/RFA_random_matrices/utils.py

Tensors are embedded as functions from `Fin`-indexed axes to `ℚ`; einsum
contractions become `Finset` sums; Python exceptions become an `Except`
value with a typed error constructor per raise site.  Randomness (numpy
draws) is injected explicitly as a permutation of the bank indices.
-/

namespace Sabertooth

/-- Typed error variants for the exceptions the source can raise:
the Performer raise on `self.mask` (unsupported causal attention), the
SONIC raise on an unsupported downsampling length and the numpy
no-replacement sampling failure (mapped to the configuration error of the
error taxonomy), Python's missing-attribute failure, and out-of-range
indexing. -/
inductive PyError
  | unsupportedOperation
  | configurationError
  | attributeError
  | indexError
deriving DecidableEq, Repr

/-! ## Performer module: performer_mha.py -/

/-- The module default for `numerical_stabilizer` (performer_mha.py line 33). -/
def numericalStabilizer : ℚ := 1 / 1000

/-- Elementwise `nn.relu`. -/
def relu (x : ℚ) : ℚ := max x 0

/-- The shifted-ReLU feature map applied to queries and keys
(performer_mha.py lines 71-72): `nn.relu(x) + numerical_stabilizer`,
elementwise. -/
def shiftedReluFeature (stab : ℚ) (x : ℚ) : ℚ := relu x + stab

/-- The key-value outer-product state
`kvs = einsum("lbhm,lbhd->bhmd", keys, values)` (performer_mha.py line 83). -/
def kvsState (L B H M D : ℕ)
    (keys : Fin L → Fin B → Fin H → Fin M → ℚ)
    (values : Fin L → Fin B → Fin H → Fin D → ℚ) :
    Fin B → Fin H → Fin M → Fin D → ℚ :=
  fun b h m d => ∑ l, keys l b h m * values l b h d

/-- The key sum `ks_sum = einsum("lbhm->bhm", keys)` (performer_mha.py line 86). -/
def ksSum (L B H M : ℕ) (keys : Fin L → Fin B → Fin H → Fin M → ℚ) :
    Fin B → Fin H → Fin M → ℚ :=
  fun b h m => ∑ l, keys l b h m

/-- The non-causal numerator
`a_v = einsum("lbhm,bhmd->lbhd", queries, kvs)` (performer_mha.py line 84). -/
def nonCausalNumerator (L B H M D : ℕ)
    (queries keys : Fin L → Fin B → Fin H → Fin M → ℚ)
    (values : Fin L → Fin B → Fin H → Fin D → ℚ) :
    Fin L → Fin B → Fin H → Fin D → ℚ :=
  fun l b h d => ∑ m, queries l b h m * kvsState L B H M D keys values b h m d

/-- The non-causal denominator
`normalizer = einsum("lbhm,bhm->lbh", queries, ks_sum)` (performer_mha.py line 87). -/
def nonCausalDenominator (L B H M : ℕ)
    (queries keys : Fin L → Fin B → Fin H → Fin M → ℚ) :
    Fin L → Fin B → Fin H → ℚ :=
  fun l b h => ∑ m, queries l b h m * ksSum L B H M keys b h m

/-- The non-causal linear attention output `a_v / normalizer`
(performer_mha.py lines 82-92), on feature-mapped inputs laid out
`[seq, batch, head, dim]` as in the source after the transposes. -/
def nonCausalLinearAttention (L B H M D : ℕ)
    (queries keys : Fin L → Fin B → Fin H → Fin M → ℚ)
    (values : Fin L → Fin B → Fin H → Fin D → ℚ) :
    Fin L → Fin B → Fin H → Fin D → ℚ :=
  fun l b h d =>
    nonCausalNumerator L B H M D queries keys values l b h d /
      nonCausalDenominator L B H M queries keys l b h

/-- The Performer `MHA.__call__` core (performer_mha.py lines 70-92), on the
per-head projected tensors `[batch, seq, head, dim]` (the dense input and
output projections are external collaborators).  Applies the shifted-ReLU
feature map to queries and keys, transposes to `[seq, batch, head, dim]`,
and either raises on `self.mask` (line 79-80) or runs the non-causal
linear-attention contraction, transposing the result back. -/
def performerAttention (L B H M D : ℕ) (stab : ℚ) (mask : Bool)
    (queries keys : Fin B → Fin L → Fin H → Fin M → ℚ)
    (values : Fin B → Fin L → Fin H → Fin D → ℚ) :
    Except PyError (Fin B → Fin L → Fin H → Fin D → ℚ) :=
  let qf := fun l b h m => shiftedReluFeature stab (queries b l h m)
  let kf := fun l b h m => shiftedReluFeature stab (keys b l h m)
  let vt := fun l b h d => values b l h d
  if mask then
    Except.error PyError.unsupportedOperation
  else
    Except.ok (fun b l h d => nonCausalLinearAttention L B H M D qf kf vt l b h d)

/-- Modelled from the spec (testable property for
`non_causal_linear_attention`): the quadratic reference that forms the full
pairwise score matrix `feature(q)·feature(k)^T`, row-normalizes it, and
contracts it against the values.  Stated on the same feature-mapped
`[seq, batch, head, dim]` tensors as `nonCausalLinearAttention`. -/
def specQuadraticReference (L B H M D : ℕ)
    (queries keys : Fin L → Fin B → Fin H → Fin M → ℚ)
    (values : Fin L → Fin B → Fin H → Fin D → ℚ) :
    Fin L → Fin B → Fin H → Fin D → ℚ :=
  fun l b h d =>
    ∑ j, (∑ m, queries l b h m * keys j b h m) /
        (∑ j2, ∑ m, queries l b h m * keys j2 b h m) * values j b h d

/-! ## SONIC module: sonic_lin_rfa_mha.py -/

/-- The module constant `EPS = 1.0` (sonic_lin_rfa_mha.py line 25). -/
def EPS : ℚ := 1

/-- Elementwise `jax.lax.clamp(lo, x, hi)`: `x` clamped into `[lo, hi]`. -/
def clamp (lo x hi : ℚ) : ℚ := min (max x lo) hi

/-- The random-feature attention denominator
`qz = jax.lax.clamp(EPS, jnp.abs(einsum("bqnd,bnd->bqn", phi_q, z)), 10e9)`
(sonic_lin_rfa_mha.py line 157), for one `(batch, query, head)` slot:
`phi_q` is the projected query row and `z` the key-sum state. -/
def rfaDenominator (P : ℕ) (phi_q z : Fin P → ℚ) : ℚ :=
  clamp EPS |∑ p, phi_q p * z p| (10 * 10 ^ 9)

/-- One downsampling einsum `einsum('ks, bsd -> bkd', mat, x)`
(sonic_lin_rfa_mha.py lines 110-114): weighted sum over the sequence axis. -/
def applyDownsample (B S D K : ℕ) (mat : Fin K → Fin S → ℚ)
    (x : Fin B → Fin S → Fin D → ℚ) : Fin B → Fin K → Fin D → ℚ :=
  fun b k d => ∑ s, mat k s * x b s d

/-- The SONIC downsampling dispatch (sonic_lin_rfa_mha.py lines 109-116):
if the key/value sequence length is 128, downsample keys and values with the
128-column matrices; if it is 512, with the 512-column matrices; otherwise
raise (`Exception("Input sequence length must be of size 128 or 512.")`,
mapped to the configuration error).  `n` is the common key/value sequence
length; the result is the pair (downsampled key, downsampled value). -/
def sonicDownsampleStep (B D K n : ℕ)
    (keyMat128 : Fin K → Fin 128 → ℚ) (keyMat512 : Fin K → Fin 512 → ℚ)
    (valMat128 : Fin K → Fin 128 → ℚ) (valMat512 : Fin K → Fin 512 → ℚ)
    (key value : Fin B → Fin n → Fin D → ℚ) :
    Except PyError ((Fin B → Fin K → Fin D → ℚ) × (Fin B → Fin K → Fin D → ℚ)) :=
  if h : n = 128 then
    Except.ok
      (applyDownsample B 128 D K keyMat128 (fun b s d => key b (Fin.cast h.symm s) d),
       applyDownsample B 128 D K valMat128 (fun b s d => value b (Fin.cast h.symm s) d))
  else if h : n = 512 then
    Except.ok
      (applyDownsample B 512 D K keyMat512 (fun b s d => key b (Fin.cast h.symm s) d),
       applyDownsample B 512 D K valMat512 (fun b s d => value b (Fin.cast h.symm s) d))
  else
    Except.error PyError.configurationError

/-- The lower-triangular validity mask `jnp.tril(jnp.ones(...))` on the last
two axes `[query_seq_length, key_seq_length]` (sonic_lin_rfa_mha.py
lines 127-129): entry `(i, j)` is kept exactly when `j ≤ i`. -/
def trilMask (Q Kc : ℕ) : Fin Q → Fin Kc → Bool :=
  fun i j => decide ((j : ℕ) ≤ (i : ℕ))

/-- The mask after the truncation `trilled_mask[:, :, :, :downsampling_k]`
(sonic_lin_rfa_mha.py line 131), keeping the first `dsk` key columns;
`hdsk` records that the slice is within bounds (in the source the key axis
already has length `downsampling_k`, so the slice is the whole axis). -/
def truncatedTrilMask (Q Kc dsk : ℕ) (hdsk : dsk ≤ Kc) : Fin Q → Fin dsk → Bool :=
  fun i j => trilMask Q Kc i (Fin.castLE hdsk j)

/-- The masked score matrix
`q_ks = jnp.where(trilled_mask == False, -9e15, q_ks)`
(sonic_lin_rfa_mha.py line 132) for one `(batch, head)` slot, with the key
axis of length `K = downsampling_k` as in the source. -/
def sonicMaskedScores (Q K : ℕ) (q_ks : Fin Q → Fin K → ℚ) : Fin Q → Fin K → ℚ :=
  fun i j =>
    if truncatedTrilMask Q K K (le_refl K) i j = false then -9 * 10 ^ 15
    else q_ks i j

/-- The SONIC causal (masked exact attention) branch for one `(batch, head)`
slot (sonic_lin_rfa_mha.py lines 124-140), with the softmax over the
downsampled key axis passed in as `sm` (the flax library softmax; dropout
is omitted as the external deterministic no-op): raw scores
`einsum('bqnh, bknh -> bnqk')`, masking, softmax, then the value
contraction `einsum('bhqk, bkhd -> bqhd')`. -/
def sonicCausalBranch (Q K E D : ℕ) (sm : (Fin K → ℚ) → Fin K → ℚ)
    (queries : Fin Q → Fin E → ℚ) (keys : Fin K → Fin E → ℚ)
    (values : Fin K → Fin D → ℚ) : Fin Q → Fin D → ℚ :=
  let q_ks := fun (i : Fin Q) (j : Fin K) => ∑ e, queries i e * keys j e
  let attn := fun (i : Fin Q) => sm (fun j => sonicMaskedScores Q K q_ks i j)
  fun i d => ∑ k, attn i k * values k d

/-! ## RFA utils module: RFA_random_matrices/utils.py, and the SONIC sampler -/

/-- The SONIC `MHA.sample_random_matrices` (sonic_lin_rfa_mha.py
lines 92-100): `np.random.choice(num_random_matrices, size=num_heads,
replace=False)` followed by `random_matrices[indices]`.  The numpy draw
without replacement is injected as a permutation `perm` of the bank
indices, of which the first `num_heads` are taken; numpy raises
(`ValueError`, mapped to the configuration error) when the sample size
exceeds the population. -/
def sonicSampleRandomMatrices (nMat P Hd numHeads : ℕ)
    (perm : Equiv.Perm (Fin nMat))
    (bank : Fin nMat → Fin P → Fin Hd → ℚ) :
    Except PyError (Fin numHeads → Fin P → Fin Hd → ℚ) :=
  if h : numHeads ≤ nMat then
    Except.ok (fun i => bank (perm (Fin.castLE h i)))
  else
    Except.error PyError.configurationError

/-- The index list `indices = list(range(num_heads))` of the evaluation
branch of `sample_random_matrices` (utils.py line 86). -/
def utilsEvalIndices (numHeads : ℕ) : List ℕ := List.range numHeads

/-- The `sample_random_matrices` of utils.py (lines 63-88).  The training
branch calls `jnp.random.choice`, but `jax.numpy` has no `random`
submodule, so the attribute lookup raises `AttributeError` before any
index is drawn.  The evaluation branch takes `indices = list(range(
num_heads))` and returns `random_matrices[indices]`, the first `num_heads`
rows of the bank (out-of-range indexing raises). -/
def utilsSampleRandomMatrices (nMat P Hd numLayers numHeads : ℕ)
    (bank : Fin nMat → Fin P → Fin Hd → ℚ) (isTraining : Bool) :
    Except PyError (Fin numHeads → Fin P → Fin Hd → ℚ) :=
  if isTraining then
    Except.error PyError.attributeError
  else if h : numHeads ≤ nMat then
    Except.ok (fun i => bank (Fin.castLE h i))
  else
    Except.error PyError.indexError

/-- Modelled from the spec: the intended training branch of
`sample_per_layer` (utils.py lines 72-84, as the spec's §4.2 contract and
the working SONIC sampler read, with `np.random.choice` in place of the
nonexistent `jnp.random.choice`): draw `num_layers * num_heads` distinct
indices (the first rows of an injected permutation of the bank), gather
the sub-bank, and partition it contiguously into `num_layers` groups of
`num_heads` matrices. -/
def specSamplePerLayerTraining (nMat P Hd numLayers numHeads : ℕ)
    (perm : Equiv.Perm (Fin nMat))
    (bank : Fin nMat → Fin P → Fin Hd → ℚ)
    (h : numLayers * numHeads ≤ nMat) :
    Fin numLayers → Fin numHeads → Fin P → Fin Hd → ℚ :=
  fun l i =>
    bank (perm (Fin.castLE h
      ⟨(l : ℕ) * numHeads + (i : ℕ), by
        calc (l : ℕ) * numHeads + (i : ℕ)
            < (l : ℕ) * numHeads + numHeads := by
              exact Nat.add_lt_add_left i.isLt _
          _ = ((l : ℕ) + 1) * numHeads := by ring
          _ ≤ numLayers * numHeads := Nat.mul_le_mul_right _ l.isLt⟩))

/-- The indices drawn by the intended training branch, as a list in draw
order: the images of `0, …, num_layers*num_heads - 1` under the injected
permutation. -/
def specTrainingIndices (nMat numLayers numHeads : ℕ)
    (perm : Equiv.Perm (Fin nMat)) (h : numLayers * numHeads ≤ nMat) :
    List (Fin nMat) :=
  (List.finRange (numLayers * numHeads)).map (fun i => perm (Fin.castLE h i))

/-! ## Theorems -/

/-- C5: for every real-valued input `x` and every positive stabilizer `s`,
the shifted-ReLU feature map returns `relu(x) + s` elementwise, and every
entry of the result is strictly positive. -/
theorem shiftedReluFeature_eq_and_pos (s x : ℚ) (hs : 0 < s) :
    shiftedReluFeature s x = relu x + s ∧ 0 < shiftedReluFeature s x := by
  have h0 : (0 : ℚ) ≤ relu x := le_max_right x 0
  exact ⟨rfl, by unfold shiftedReluFeature; linarith⟩

/-- Witness for C5 at the default stabilizer `1/1000` and the negative
input `-5`. -/
theorem shiftedReluFeature_eq_and_pos_witness :
    (0 : ℚ) < 1 / 1000 ∧
      (shiftedReluFeature (1 / 1000) (-5) = relu (-5) + 1 / 1000 ∧
        0 < shiftedReluFeature (1 / 1000) (-5)) :=
  ⟨by norm_num, shiftedReluFeature_eq_and_pos (1 / 1000) (-5) (by norm_num)⟩

/-- C2: for every input, calling the Performer attention with the
causal/mask flag set yields the unsupported-operation error: it never
returns an attention output. -/
theorem performerAttention_mask_raises (L B H M D : ℕ) (stab : ℚ)
    (queries keys : Fin B → Fin L → Fin H → Fin M → ℚ)
    (values : Fin B → Fin L → Fin H → Fin D → ℚ) :
    performerAttention L B H M D stab true queries keys values =
      Except.error PyError.unsupportedOperation := rfl

/-- C3: the random-feature normalization denominator is the clamp of
`|phi_q · z|` into `[EPS, 1e10]` with `EPS = 1`; its magnitude is always at
least `EPS` and at most `1e10`, for all inputs. -/
theorem rfaDenominator_bounds (P : ℕ) (phi_q z : Fin P → ℚ) :
    EPS ≤ |rfaDenominator P phi_q z| ∧ |rfaDenominator P phi_q z| ≤ 10 ^ 10 := by
  have hlo : EPS ≤ rfaDenominator P phi_q z := by
    unfold rfaDenominator clamp
    exact le_min (le_max_right _ _) (by norm_num [EPS])
  have hhi : rfaDenominator P phi_q z ≤ 10 * 10 ^ 9 := by
    unfold rfaDenominator clamp
    exact min_le_right _ _
  have habs : |rfaDenominator P phi_q z| = rfaDenominator P phi_q z :=
    abs_of_nonneg (le_trans (by norm_num [EPS]) hlo)
  rw [habs]
  exact ⟨hlo, by linarith⟩

/-- C4: the downsampling step raises the configuration error exactly on
key/value sequence lengths outside `{128, 512}`; on length 128 (resp. 512)
it succeeds and returns the weighted sums over the sequence axis with the
matching 128-column (resp. 512-column) downsampling matrices. -/
theorem sonicDownsampleStep_spec (B D K n : ℕ)
    (keyMat128 : Fin K → Fin 128 → ℚ) (keyMat512 : Fin K → Fin 512 → ℚ)
    (valMat128 : Fin K → Fin 128 → ℚ) (valMat512 : Fin K → Fin 512 → ℚ)
    (key value : Fin B → Fin n → Fin D → ℚ) :
    (n ≠ 128 → n ≠ 512 →
      sonicDownsampleStep B D K n keyMat128 keyMat512 valMat128 valMat512 key value =
        Except.error PyError.configurationError) ∧
    (∀ h : n = 128,
      sonicDownsampleStep B D K n keyMat128 keyMat512 valMat128 valMat512 key value =
        Except.ok
          (applyDownsample B 128 D K keyMat128 (fun b s d => key b (Fin.cast h.symm s) d),
           applyDownsample B 128 D K valMat128 (fun b s d => value b (Fin.cast h.symm s) d))) ∧
    (∀ h : n = 512,
      sonicDownsampleStep B D K n keyMat128 keyMat512 valMat128 valMat512 key value =
        Except.ok
          (applyDownsample B 512 D K keyMat512 (fun b s d => key b (Fin.cast h.symm s) d),
           applyDownsample B 512 D K valMat512 (fun b s d => value b (Fin.cast h.symm s) d))) := by
  refine ⟨fun h1 h2 => ?_, fun h => ?_, fun h => ?_⟩
  · simp [sonicDownsampleStep, h1, h2]
  · subst h; simp [sonicDownsampleStep]
  · subst h; simp [sonicDownsampleStep]

/-- Witness for C4: a length-256 input raises the configuration error, and
a length-128 input succeeds with the 128-column weighted sums. -/
theorem sonicDownsampleStep_spec_witness :
    (sonicDownsampleStep 1 1 1 256 (fun _ _ => 0) (fun _ _ => 0) (fun _ _ => 0)
        (fun _ _ => 0) (fun _ _ _ => 0) (fun _ _ _ => 0) =
      Except.error PyError.configurationError) ∧
    (sonicDownsampleStep 1 1 1 128 (fun _ _ => 0) (fun _ _ => 0) (fun _ _ => 0)
        (fun _ _ => 0) (fun _ _ _ => 0) (fun _ _ _ => 0) =
      Except.ok
        (applyDownsample 1 128 1 1 (fun _ _ => 0) (fun b s d => (fun _ _ _ => (0 : ℚ)) b (Fin.cast rfl s) d),
         applyDownsample 1 128 1 1 (fun _ _ => 0) (fun b s d => (fun _ _ _ => (0 : ℚ)) b (Fin.cast rfl s) d))) :=
  ⟨(sonicDownsampleStep_spec 1 1 1 256 (fun _ _ => 0) (fun _ _ => 0) (fun _ _ => 0)
      (fun _ _ => 0) (fun _ _ _ => 0) (fun _ _ _ => 0)).1 (by norm_num) (by norm_num),
   (sonicDownsampleStep_spec 1 1 1 128 (fun _ _ => 0) (fun _ _ => 0) (fun _ _ => 0)
      (fun _ _ => 0) (fun _ _ _ => 0) (fun _ _ _ => 0)).2.1 rfl⟩

/-- C1: for every query/key/value input (any shape, in particular the
small fixed shapes such as seq=4, batch=2, heads=3, head_dim=5), the
non-causal linear attention output equals the quadratic reference that
forms the full pairwise score matrix, row-normalizes it, and contracts it
against the values — exactly, over the rationals. -/
theorem nonCausalLinearAttention_eq_specQuadraticReference (L B H M D : ℕ)
    (queries keys : Fin L → Fin B → Fin H → Fin M → ℚ)
    (values : Fin L → Fin B → Fin H → Fin D → ℚ) :
    nonCausalLinearAttention L B H M D queries keys values =
      specQuadraticReference L B H M D queries keys values := by
  funext l b h d
  simp only [nonCausalLinearAttention, specQuadraticReference, nonCausalNumerator,
    nonCausalDenominator, kvsState, ksSum]
  have hnum : (∑ j, (∑ m, queries l b h m * keys j b h m) * values j b h d)
      = ∑ m, queries l b h m * ∑ j, keys j b h m * values j b h d := by
    simp only [Finset.sum_mul, Finset.mul_sum, mul_assoc]
    exact Finset.sum_comm
  have hden : (∑ j2 : Fin L, ∑ m, queries l b h m * keys j2 b h m)
      = ∑ m, queries l b h m * ∑ j2, keys j2 b h m := by
    simp only [Finset.mul_sum]
    exact Finset.sum_comm
  rw [← hnum, ← hden, Finset.sum_div]
  simp only [div_mul_eq_mul_div]

/-- C6: for every bank and every count not exceeding the bank size,
evaluation-mode sampling deterministically returns the first `count` rows
of the bank, with indices `list(range(count))`; two calls with identical
arguments therefore return identical index sets and sub-banks. -/
theorem utilsSampleRandomMatrices_eval_first_rows (nMat P Hd numLayers numHeads : ℕ)
    (bank : Fin nMat → Fin P → Fin Hd → ℚ) (h : numHeads ≤ nMat) :
    utilsSampleRandomMatrices nMat P Hd numLayers numHeads bank false =
      Except.ok (fun i => bank (Fin.castLE h i)) ∧
    utilsEvalIndices numHeads = List.range numHeads := by
  refine ⟨?_, rfl⟩
  simp only [utilsSampleRandomMatrices, Bool.false_eq_true, if_false, dif_pos h]

/-- Witness for C6 at a bank of two matrices and count one. -/
theorem utilsSampleRandomMatrices_eval_first_rows_witness :
    utilsSampleRandomMatrices 2 1 1 3 1 (fun _ _ _ => 0) false =
      Except.ok (fun i => (fun _ _ _ => (0 : ℚ)) (Fin.castLE (show 1 ≤ 2 by norm_num) i)) ∧
    utilsEvalIndices 1 = List.range 1 :=
  utilsSampleRandomMatrices_eval_first_rows 2 1 1 3 1 (fun _ _ _ => 0) (by norm_num)

/-- C7: for every bank and every requested sample count strictly greater
than the bank size, the SONIC sampler fails with the configuration error
rather than returning a sub-bank. -/
theorem sonicSampleRandomMatrices_count_exceeds (nMat P Hd numHeads : ℕ)
    (perm : Equiv.Perm (Fin nMat)) (bank : Fin nMat → Fin P → Fin Hd → ℚ)
    (h : nMat < numHeads) :
    sonicSampleRandomMatrices nMat P Hd numHeads perm bank =
      Except.error PyError.configurationError := by
  unfold sonicSampleRandomMatrices
  rw [dif_neg (by omega)]

/-- Witness for C7: a bank of one matrix cannot supply two heads. -/
theorem sonicSampleRandomMatrices_count_exceeds_witness :
    sonicSampleRandomMatrices 1 1 1 2 (Equiv.refl _) (fun _ _ _ => 0) =
      Except.error PyError.configurationError :=
  sonicSampleRandomMatrices_count_exceeds 1 1 1 2 (Equiv.refl _) (fun _ _ _ => 0)
    (by norm_num)

/-- C8 (code bug): evaluating utils.sample_random_matrices at a concrete
training-mode input (bank of 6 matrices, 2 layers, 3 heads): the training
branch calls `jnp.random.choice`, which does not exist (`jax.numpy` has no
`random` submodule), so the call raises AttributeError instead of drawing
and partitioning indices as the contract requires. -/
theorem utilsSampleRandomMatrices_training_raises :
    utilsSampleRandomMatrices 6 1 1 2 3 (fun _ _ _ => 0) true =
      Except.error PyError.attributeError := rfl

/-- The intended training draw (as the spec and the working SONIC sampler
read) repeats no index within one draw. -/
theorem specTrainingIndices_nodup (nMat numLayers numHeads : ℕ)
    (perm : Equiv.Perm (Fin nMat)) (h : numLayers * numHeads ≤ nMat) :
    (specTrainingIndices nMat numLayers numHeads perm h).Nodup := by
  unfold specTrainingIndices
  refine (List.nodup_finRange _).map ?_
  intro a b hab
  exact Fin.castLE_injective h (perm.injective hab)

/-- C9: the non-causal Performer normalizer — the contraction of a
feature-mapped query with the sum of feature-mapped keys — is strictly
positive for every real-valued input, every positive stabilizer, and every
nonempty sequence and feature axis, because queries and keys are strictly
positive after the shifted-ReLU map; the division is therefore always
well-defined. -/
theorem performerNormalizer_pos (L B H M : ℕ) (stab : ℚ)
    (queries keys : Fin B → Fin L → Fin H → Fin M → ℚ)
    (hs : 0 < stab) (hM : 0 < M) (l : Fin L) (b : Fin B) (hd : Fin H) :
    0 < nonCausalDenominator L B H M
        (fun l2 b2 h2 m => shiftedReluFeature stab (queries b2 l2 h2 m))
        (fun l2 b2 h2 m => shiftedReluFeature stab (keys b2 l2 h2 m)) l b hd := by
  have hphi : ∀ y : ℚ, 0 < shiftedReluFeature stab y := by
    intro y
    have h0 : (0 : ℚ) ≤ relu y := le_max_right y 0
    unfold shiftedReluFeature
    linarith
  haveI : Nonempty (Fin L) := ⟨l⟩
  haveI : Nonempty (Fin M) := ⟨⟨0, hM⟩⟩
  unfold nonCausalDenominator ksSum
  refine Finset.sum_pos (fun m _ => mul_pos (hphi _) ?_) Finset.univ_nonempty
  exact Finset.sum_pos (fun l2 _ => hphi _) Finset.univ_nonempty

/-- Witness for C9 at shape 1×1×1×1, the default stabilizer and the zero
tensors. -/
theorem performerNormalizer_pos_witness :
    0 < nonCausalDenominator 1 1 1 1
        (fun l2 b2 h2 m => shiftedReluFeature (1 / 1000) ((fun _ _ _ _ => (0 : ℚ)) b2 l2 h2 m))
        (fun l2 b2 h2 m => shiftedReluFeature (1 / 1000) ((fun _ _ _ _ => (0 : ℚ)) b2 l2 h2 m))
        0 0 0 :=
  performerNormalizer_pos 1 1 1 1 (1 / 1000) (fun _ _ _ _ => 0) (fun _ _ _ _ => 0)
    (by norm_num) (by norm_num) 0 0 0

/-- C10: the truncated lower-triangular mask lets query position `i` attend
to downsampled key column `j` exactly when `j ≤ i`; any query at position
`i ≥ downsampling_k` attends to every downsampled column, query position 0
attends only to column 0, and masked-out entries of the score matrix are
replaced with `-9e15` (kept entries are left unchanged) before the softmax. -/
theorem sonicCausalMask_spec (Q K : ℕ) (q_ks : Fin Q → Fin K → ℚ)
    (i : Fin Q) (j : Fin K) :
    (truncatedTrilMask Q K K (le_refl K) i j = true ↔ (j : ℕ) ≤ (i : ℕ)) ∧
    ((K : ℕ) ≤ (i : ℕ) → truncatedTrilMask Q K K (le_refl K) i j = true) ∧
    ((i : ℕ) = 0 → (truncatedTrilMask Q K K (le_refl K) i j = true ↔ (j : ℕ) = 0)) ∧
    (truncatedTrilMask Q K K (le_refl K) i j = false →
      sonicMaskedScores Q K q_ks i j = -9 * 10 ^ 15) ∧
    (truncatedTrilMask Q K K (le_refl K) i j = true →
      sonicMaskedScores Q K q_ks i j = q_ks i j) := by
  have hmask : truncatedTrilMask Q K K (le_refl K) i j = true ↔ (j : ℕ) ≤ (i : ℕ) := by
    unfold truncatedTrilMask trilMask
    simp
  refine ⟨hmask, ?_, ?_, ?_, ?_⟩
  · intro hK
    exact hmask.mpr (le_trans (le_of_lt j.isLt) hK)
  · intro hi
    rw [hmask, hi]
    omega
  · intro hf
    simp only [sonicMaskedScores, hf, if_pos]
  · intro ht
    simp only [sonicMaskedScores, ht]
    simp

/-- Witness for C10 on a 3×2 score matrix: position 2 ≥ K = 2 attends to
column 1, position 0 does not attend to column 1, and the masked entry at
(0, 1) is `-9e15`. -/
theorem sonicCausalMask_spec_witness :
    truncatedTrilMask 3 2 2 (le_refl 2) ⟨2, by norm_num⟩ ⟨1, by norm_num⟩ = true ∧
    (truncatedTrilMask 3 2 2 (le_refl 2) ⟨0, by norm_num⟩ ⟨1, by norm_num⟩ = true ↔
      (1 : ℕ) = 0) ∧
    sonicMaskedScores 3 2 (fun _ _ => 5) ⟨0, by norm_num⟩ ⟨1, by norm_num⟩ =
      -9 * 10 ^ 15 :=
  ⟨(sonicCausalMask_spec 3 2 (fun _ _ => 5) ⟨2, by norm_num⟩ ⟨1, by norm_num⟩).2.1
      (by norm_num),
   (sonicCausalMask_spec 3 2 (fun _ _ => 5) ⟨0, by norm_num⟩ ⟨1, by norm_num⟩).2.2.1 rfl,
   (sonicCausalMask_spec 3 2 (fun _ _ => 5) ⟨0, by norm_num⟩ ⟨1, by norm_num⟩).2.2.2.1
      (by decide)⟩
